import Mathlib

/-!
A shallow embedding of `hal/audio_extn/a2dp.c` (the A2DP offload HAL of
platform_hardware_qcom_audio), together with theorems about its session
state machine and codec configuration logic.

Modelling conventions:
- Machine integers become `Nat` (unsigned fields) or `Int` (the C `int`
  session counter and error returns); no overflow is reachable in the
  modelled code paths.
- The Bluetooth IPC function pointers of `struct a2dp_data` become `Bool`
  fields recording whether the symbol is bound (non-NULL).
- External collaborators (the mixer control registry and the IPC service)
  are modelled as per-call environments: a `mixer_env` says which named
  controls exist and whether each write is accepted, and the IPC results
  (stream start and stop return codes, the codec info block, the scrambler
  query) are passed in explicitly.
- Each C function that mutates the global `struct a2dp_data a2dp` becomes a
  function from the old state (plus environment) to the new state, paired
  with its return value and with flags recording which external calls it
  performed.
-/

/-! ### Constants from the source -/

/-- Linux errno used by the source for unavailable/busy returns. -/
def ENOSYS : Int := 38

/-- Linux errno used by the source for encoder configuration failure. -/
def ETIMEDOUT : Int := 110

def ENC_MEDIA_FMT_AAC : Nat := 0x00010DA6
def ENC_MEDIA_FMT_APTX : Nat := 0x000131ff
def ENC_MEDIA_FMT_APTX_HD : Nat := 0x00013200
def ENC_MEDIA_FMT_LDAC : Nat := 0x00013224
def ENC_MEDIA_FMT_SBC : Nat := 0x00010BF2
def ENC_MEDIA_FMT_NONE : Nat := 0

def MEDIA_FMT_SBC_ALLOCATION_METHOD_LOUDNESS : Nat := 0
def MEDIA_FMT_SBC_ALLOCATION_METHOD_SNR : Nat := 1
def MEDIA_FMT_AAC_AOT_LC : Nat := 2
def MEDIA_FMT_AAC_AOT_SBR : Nat := 5
def MEDIA_FMT_AAC_AOT_PS : Nat := 29
def MEDIA_FMT_SBC_CHANNEL_MODE_MONO : Nat := 1
def MEDIA_FMT_SBC_CHANNEL_MODE_STEREO : Nat := 2
def MEDIA_FMT_SBC_CHANNEL_MODE_DUAL_MONO : Nat := 8
def MEDIA_FMT_SBC_CHANNEL_MODE_JOINT_STEREO : Nat := 9

def PCM_CHANNEL_L : Nat := 1
def PCM_CHANNEL_R : Nat := 2
def PCM_CHANNEL_C : Nat := 3

def DEFAULT_ENCODER_BIT_FORMAT : Nat := 16

/-- Values of `enc_codec_t` (extended from audio-base.h). -/
def ENC_CODEC_TYPE_INVALID : Nat := 0xFFFFFFFF
def ENC_CODEC_TYPE_AAC : Nat := 0x04000000
def ENC_CODEC_TYPE_SBC : Nat := 0x1F000000
def ENC_CODEC_TYPE_APTX : Nat := 0x20000000
def ENC_CODEC_TYPE_APTX_HD : Nat := 0x21000000
def ENC_CODEC_TYPE_LDAC : Nat := 0x23000000

/-- The `enum A2DP_STATE` of the source. -/
inductive A2DP_STATE where
  | CONNECTED
  | STARTED
  | STOPPED
  | DISCONNECTED
deriving DecidableEq, Repr

/-! ### Session state: `struct a2dp_data` -/

/-- The global `struct a2dp_data a2dp`. Function pointers are modelled as
booleans recording whether the symbol is bound; the `adev` and
`bt_lib_handle` pointers shrink to a boolean handle flag. -/
structure a2dp_data where
  bt_lib_handle : Bool
  audio_stream_open : Bool
  audio_stream_close : Bool
  audio_stream_start : Bool
  audio_stream_stop : Bool
  audio_stream_suspend : Bool
  clear_a2dp_suspend_flag : Bool
  audio_get_codec_config : Bool
  audio_check_a2dp_ready : Bool
  audio_is_scrambling_enabled : Bool
  bt_state : A2DP_STATE
  bt_encoder_format : Nat
  enc_sampling_rate : Nat
  enc_channels : Nat
  a2dp_started : Bool
  a2dp_suspended : Bool
  a2dp_total_active_session_request : Int
  is_a2dp_offload_supported : Bool
  is_handoff_in_progress : Bool
  is_aptx_dual_mono_supported : Bool
deriving DecidableEq, Repr

/-! ### Collaborator environments -/

/-- The view one call has of the mixer control registry: which named
controls resolve, and whether each write on them is accepted (returns 0). -/
structure mixer_env where
  /-- "SLIM_7_RX Encoder Config" resolves -/
  enc_config_ctl : Bool
  /-- writing the encoder config block succeeds -/
  enc_config_set_ok : Bool
  /-- "AFE Input Bit Format" resolves -/
  bit_format_ctl : Bool
  /-- writing the bit format succeeds -/
  bit_format_set_ok : Bool
  /-- "BT SampleRate" resolves -/
  sample_rate_ctl : Bool
  /-- writing the backend sample rate succeeds -/
  sample_rate_set_ok : Bool
  /-- "AFE Input Channels" resolves -/
  in_channels_ctl : Bool
  /-- writing the AFE input channels succeeds -/
  in_channels_set_ok : Bool
  /-- "AFE Scrambler Mode" resolves -/
  scrambler_ctl : Bool
  /-- writing the scrambler mode succeeds -/
  scrambler_set_ok : Bool
deriving DecidableEq, Repr

/-! ### Codec parameter blocks (input from the Bluetooth IPC library) -/

/-- `audio_sbc_encoder_config`. -/
structure audio_sbc_encoder_config where
  subband : Nat
  blk_len : Nat
  sampling_rate : Nat
  channels : Nat
  alloc : Nat
  min_bitpool : Nat
  max_bitpool : Nat
  bitrate : Nat
  bits_per_sample : Nat
deriving DecidableEq, Repr

/-- The C union `audio_aptx_encoder_config` holds one pointer viewed either
as `audio_aptx_default_config` or as `audio_aptx_dual_mono_config`; both
layouts share `sampling_rate`, `channels`, `bitrate`, and the fourth word is
read as `bits_per_sample` by the default view and as `sync_mode` by the dual
mono view. We model the shared block with the aliased fourth word. -/
structure audio_aptx_encoder_config where
  sampling_rate : Nat
  channels : Nat
  bitrate : Nat
  /-- fourth 32-bit word: `bits_per_sample` of the default view, aliased
  with `sync_mode` of the dual mono view -/
  bits_per_sample : Nat
deriving DecidableEq, Repr

/-- `audio_aptx_default_config`, used standalone by the APTX HD path. -/
structure audio_aptx_default_config where
  sampling_rate : Nat
  channels : Nat
  bitrate : Nat
  bits_per_sample : Nat
deriving DecidableEq, Repr

/-- `audio_aac_encoder_config`. -/
structure audio_aac_encoder_config where
  enc_mode : Nat
  format_flag : Nat
  channels : Nat
  sampling_rate : Nat
  bitrate : Nat
  bits_per_sample : Nat
deriving DecidableEq, Repr

/-- `audio_ldac_encoder_config`. -/
structure audio_ldac_encoder_config where
  sampling_rate : Nat
  bit_rate : Nat
  channel_mode : Nat
  mtu : Nat
  bits_per_sample : Nat
deriving DecidableEq, Repr

/-- The codec info block returned by `audio_get_codec_config`, discriminated
by the returned `codec_type`; `none` payloads model a NULL info pointer. -/
inductive codec_info where
  | invalid
  | sbc (cfg : Option audio_sbc_encoder_config)
  | aptx (cfg : Option audio_aptx_encoder_config)
  | aptx_hd (cfg : Option audio_aptx_default_config)
  | aac (cfg : Option audio_aac_encoder_config)
  | ldac (cfg : Option audio_ldac_encoder_config)
deriving DecidableEq, Repr

/-! ### DSP configuration records -/

/-- `struct sbc_enc_cfg_t` (packed, all fields 32-bit). -/
structure sbc_enc_cfg_t where
  enc_format : Nat
  num_subbands : Nat
  blk_len : Nat
  channel_mode : Nat
  alloc_method : Nat
  bit_rate : Nat
  sample_rate : Nat
deriving DecidableEq, Repr

/-- `struct aac_enc_cfg_t` (packed). -/
structure aac_enc_cfg_t where
  enc_format : Nat
  bit_rate : Nat
  enc_mode : Nat
  aac_fmt_flag : Nat
  channel_cfg : Nat
  sample_rate : Nat
deriving DecidableEq, Repr

/-- `struct custom_enc_cfg_t` (packed; 24 bytes). -/
structure custom_enc_cfg_t where
  enc_format : Nat
  sample_rate : Nat
  num_channels : Nat
  reserved : Nat
  /-- the 8-byte `channel_mapping` array -/
  channel_mapping : List Nat
  custom_size : Nat
deriving DecidableEq, Repr

/-- `struct aptx_enc_cfg_t`: custom header plus the V2 `sync_mode` word. -/
structure aptx_enc_cfg_t where
  custom_cfg : custom_enc_cfg_t
  sync_mode : Nat
deriving DecidableEq, Repr

/-- `struct ldac_enc_cfg_t`: custom header plus the LDAC specific fields. -/
structure ldac_enc_cfg_t where
  custom_cfg : custom_enc_cfg_t
  bit_rate : Nat
  channel_mode : Nat
  mtu : Nat
deriving DecidableEq, Repr

/-- Byte size of the packed `struct ldac_enc_cfg_t`:
`custom_enc_cfg_t` is 4+4+2+2+8+4 = 24 bytes and
`ldac_specific_enc_cfg_t` is 4+2+2 = 8 bytes. -/
def ldac_enc_cfg_byte_size : Nat := 32

/-! ### Pure translation helpers (switch statements of the source) -/

/-- The `switch (sbc_bt_cfg->channels)` of `configure_sbc_enc_format`. -/
def sbc_channel_mode (channels : Nat) : Nat :=
  if channels = 0 then MEDIA_FMT_SBC_CHANNEL_MODE_MONO
  else if channels = 1 then MEDIA_FMT_SBC_CHANNEL_MODE_DUAL_MONO
  else if channels = 3 then MEDIA_FMT_SBC_CHANNEL_MODE_JOINT_STEREO
  else MEDIA_FMT_SBC_CHANNEL_MODE_STEREO

/-- The `if (sbc_bt_cfg->alloc)` of `configure_sbc_enc_format`: a truthy
allocation flag selects the LOUDNESS constant, a falsy one SNR. -/
def sbc_alloc_method (alloc : Nat) : Nat :=
  if alloc ≠ 0 then MEDIA_FMT_SBC_ALLOCATION_METHOD_LOUDNESS
  else MEDIA_FMT_SBC_ALLOCATION_METHOD_SNR

/-- The `switch (aac_bt_cfg->enc_mode)` of `configure_aac_enc_format`. -/
def aac_enc_mode (enc_mode : Nat) : Nat :=
  if enc_mode = 0 then MEDIA_FMT_AAC_AOT_LC
  else if enc_mode = 2 then MEDIA_FMT_AAC_AOT_PS
  else MEDIA_FMT_AAC_AOT_SBR

/-- The `switch` on the LDAC channel mode: 4 is mono, everything else
(including 1 and 2) is stereo. -/
def ldac_num_channels (channel_mode : Nat) : Nat :=
  if channel_mode = 4 then 1 else 2

/-- Channel mapping array written for LDAC (8 bytes, zero initialised). -/
def ldac_channel_mapping (channel_mode : Nat) : List Nat :=
  if channel_mode = 4 then [PCM_CHANNEL_C, 0, 0, 0, 0, 0, 0, 0]
  else [PCM_CHANNEL_L, PCM_CHANNEL_R, 0, 0, 0, 0, 0, 0]

/-- Channel mapping array written for APTX and APTX HD (`switch` on the
number of channels: 1 is center, 2/default is left+right). -/
def aptx_channel_mapping (num_channels : Nat) : List Nat :=
  if num_channels = 1 then [PCM_CHANNEL_C, 0, 0, 0, 0, 0, 0, 0]
  else [PCM_CHANNEL_L, PCM_CHANNEL_R, 0, 0, 0, 0, 0, 0]

/-- The DSP record built by `configure_sbc_enc_format`. -/
def sbc_build_dsp_cfg (cfg : audio_sbc_encoder_config) : sbc_enc_cfg_t :=
  { enc_format := ENC_MEDIA_FMT_SBC
    num_subbands := cfg.subband
    blk_len := cfg.blk_len
    channel_mode := sbc_channel_mode cfg.channels
    alloc_method := sbc_alloc_method cfg.alloc
    bit_rate := cfg.bitrate
    sample_rate := cfg.sampling_rate }

/-- The DSP record built by `configure_aac_enc_format`. -/
def aac_build_dsp_cfg (cfg : audio_aac_encoder_config) : aac_enc_cfg_t :=
  { enc_format := ENC_MEDIA_FMT_AAC
    bit_rate := cfg.bitrate
    enc_mode := aac_enc_mode cfg.enc_mode
    aac_fmt_flag := cfg.format_flag
    channel_cfg := cfg.channels
    sample_rate := cfg.sampling_rate }

/-- The DSP record built by `configure_ldac_enc_format`. -/
def ldac_build_dsp_cfg (cfg : audio_ldac_encoder_config) : ldac_enc_cfg_t :=
  { custom_cfg :=
      { enc_format := ENC_MEDIA_FMT_LDAC
        sample_rate := cfg.sampling_rate
        num_channels := ldac_num_channels cfg.channel_mode
        reserved := 0
        channel_mapping := ldac_channel_mapping cfg.channel_mode
        custom_size := ldac_enc_cfg_byte_size }
    bit_rate := cfg.bit_rate
    channel_mode := cfg.channel_mode
    mtu := cfg.mtu }

/-- The DSP record built by `configure_aptx_enc_format`; `dual_mono` is the
session flag `is_aptx_dual_mono_supported`. Only the dual mono branch
assigns `sync_mode` (the struct is memset to zero first); `custom_size` is
never assigned and stays 0. -/
def aptx_build_dsp_cfg (dual_mono : Bool) (cfg : audio_aptx_encoder_config) :
    aptx_enc_cfg_t :=
  { custom_cfg :=
      { enc_format := ENC_MEDIA_FMT_APTX
        sample_rate := cfg.sampling_rate
        num_channels := cfg.channels
        reserved := 0
        channel_mapping := aptx_channel_mapping cfg.channels
        custom_size := 0 }
    sync_mode := if dual_mono then cfg.bits_per_sample else 0 }

/-- The DSP record built by `configure_aptx_hd_enc_format`. -/
def aptx_hd_build_dsp_cfg (cfg : audio_aptx_default_config) :
    custom_enc_cfg_t :=
  { enc_format := ENC_MEDIA_FMT_APTX_HD
    sample_rate := cfg.sampling_rate
    num_channels := cfg.channels
    reserved := 0
    channel_mapping := aptx_channel_mapping cfg.channels
    custom_size := 0 }

/-! ### Mixer configuration functions -/

/-- The bit format string chosen by `a2dp_set_bit_format`. -/
def a2dp_bit_format_str (enc_bit_format : Nat) : String :=
  if enc_bit_format = 32 then "S32_LE"
  else if enc_bit_format = 24 then "S24_LE"
  else "S16_LE"

/-- `a2dp_set_bit_format`: returns 0 exactly when the "AFE Input Bit Format"
control resolves and the enum write is accepted, otherwise -ENOSYS. -/
def a2dp_set_bit_format (menv : mixer_env) (enc_bit_format : Nat) : Int :=
  if menv.bit_format_ctl = false then -ENOSYS
  else if menv.bit_format_set_ok = false then -ENOSYS
  else 0

/-- The local `sampling_rate` variable of `a2dp_set_backend_cfg`: LDAC opens
the slimbus port at double rate for 48 kHz or 44.1 kHz input. -/
def a2dp_backend_sampling_rate (st : a2dp_data) : Nat :=
  if st.bt_encoder_format = ENC_CODEC_TYPE_LDAC ∧
      (st.enc_sampling_rate = 48000 ∨ st.enc_sampling_rate = 44100) then
    st.enc_sampling_rate * 2
  else st.enc_sampling_rate

/-- The `rate_str` switch of `a2dp_set_backend_cfg`. -/
def a2dp_backend_rate_str (st : a2dp_data) : String :=
  if a2dp_backend_sampling_rate st = 44100 then "KHZ_44P1"
  else if a2dp_backend_sampling_rate st = 48000 then "KHZ_48"
  else if a2dp_backend_sampling_rate st = 88200 then "KHZ_88P2"
  else if a2dp_backend_sampling_rate st = 96000 then "KHZ_96"
  else "KHZ_48"

/-- The `in_channels` switch of `a2dp_set_backend_cfg`. -/
def a2dp_backend_in_channels_str (st : a2dp_data) : String :=
  if st.enc_channels = 1 then "One" else "Two"

/-- Record of the enum writes attempted by `a2dp_set_backend_cfg`: the rate
write happens first and a missing control or rejected write aborts before
the channel write. -/
structure backend_cfg_writes where
  rate_write : Option String
  rate_write_ok : Bool
  in_channels_write : Option String
  in_channels_write_ok : Bool
deriving DecidableEq, Repr

/-- `a2dp_set_backend_cfg` (returns void; session state is read only). -/
def a2dp_set_backend_cfg (st : a2dp_data) (menv : mixer_env) :
    backend_cfg_writes :=
  if menv.sample_rate_ctl = false then
    { rate_write := none, rate_write_ok := false
      in_channels_write := none, in_channels_write_ok := false }
  else if menv.sample_rate_set_ok = false then
    { rate_write := some (a2dp_backend_rate_str st), rate_write_ok := false
      in_channels_write := none, in_channels_write_ok := false }
  else if menv.in_channels_ctl = false then
    { rate_write := some (a2dp_backend_rate_str st), rate_write_ok := true
      in_channels_write := none, in_channels_write_ok := false }
  else if menv.in_channels_set_ok = false then
    { rate_write := some (a2dp_backend_rate_str st), rate_write_ok := true
      in_channels_write := some (a2dp_backend_in_channels_str st)
      in_channels_write_ok := false }
  else
    { rate_write := some (a2dp_backend_rate_str st), rate_write_ok := true
      in_channels_write := some (a2dp_backend_in_channels_str st)
      in_channels_write_ok := true }

/-- `a2dp_check_and_set_scrambler`: the IPC query runs only when the symbol
is bound and the state is not DISCONNECTED; `scrambling_enabled` is the IPC
result. Returns 0 when scrambling is off or was enabled successfully. -/
def a2dp_check_and_set_scrambler (st : a2dp_data) (menv : mixer_env)
    (scrambling_enabled : Bool) : Int :=
  if st.audio_is_scrambling_enabled = true ∧
      st.bt_state ≠ A2DP_STATE.DISCONNECTED ∧ scrambling_enabled = true then
    if menv.scrambler_ctl = false then -ENOSYS
    else if menv.scrambler_set_ok = false then -1
    else 0
  else 0

/-! ### Session state machine -/

/-- `a2dp_common_init`. -/
def a2dp_common_init (st : a2dp_data) : a2dp_data :=
  { st with
      a2dp_started := false
      a2dp_total_active_session_request := 0
      a2dp_suspended := false
      bt_encoder_format := ENC_CODEC_TYPE_INVALID
      bt_state := A2DP_STATE.DISCONNECTED }

/-- `reset_a2dp_enc_config_params`: if the encoder config control resolves,
a zeroed SBC-sized block is written and `bt_encoder_format` is set to
`ENC_MEDIA_FMT_NONE`; the returned value is that of the final
`a2dp_set_bit_format(DEFAULT_ENCODER_BIT_FORMAT)` call. -/
def reset_a2dp_enc_config_params (st : a2dp_data) (menv : mixer_env) :
    Int × a2dp_data :=
  (a2dp_set_bit_format menv DEFAULT_ENCODER_BIT_FORMAT,
   if menv.enc_config_ctl then
     { st with bt_encoder_format := ENC_MEDIA_FMT_NONE }
   else st)

/-- `close_a2dp_output`: requires the library handle and the close symbol;
invokes IPC close when not already DISCONNECTED (result only logged), then
unconditionally reinitialises the session and clears the negotiated rate
and channel count. -/
def close_a2dp_output (st : a2dp_data) : Int × a2dp_data :=
  if ¬(st.bt_lib_handle = true ∧ st.audio_stream_close = true) then
    (-ENOSYS, st)
  else
    (0, { a2dp_common_init st with enc_sampling_rate := 0, enc_channels := 0 })

/-- `configure_sbc_enc_format`; `sbc_bt_cfg = none` models a NULL pointer.
The session fields are assigned only after the null check, the control
lookup, the config block write and the bit format write all succeed. -/
def configure_sbc_enc_format (st : a2dp_data) (menv : mixer_env)
    (sbc_bt_cfg : Option audio_sbc_encoder_config) : Bool × a2dp_data :=
  match sbc_bt_cfg with
  | none => (false, st)
  | some cfg =>
    if menv.enc_config_ctl = false then (false, st)
    else if menv.enc_config_set_ok = false then (false, st)
    else if a2dp_set_bit_format menv cfg.bits_per_sample ≠ 0 then (false, st)
    else
      (true,
       { st with
           bt_encoder_format := ENC_CODEC_TYPE_SBC
           enc_sampling_rate := cfg.sampling_rate
           enc_channels :=
             if (sbc_build_dsp_cfg cfg).channel_mode =
                 MEDIA_FMT_SBC_CHANNEL_MODE_MONO then 1 else 2 })

/-- `configure_aptx_enc_format`; the bit format write reads the fourth word
of the parameter block through the default view in both branches. -/
def configure_aptx_enc_format (st : a2dp_data) (menv : mixer_env)
    (aptx_bt_cfg : Option audio_aptx_encoder_config) : Bool × a2dp_data :=
  match aptx_bt_cfg with
  | none => (false, st)
  | some cfg =>
    if menv.enc_config_ctl = false then (false, st)
    else if menv.enc_config_set_ok = false then (false, st)
    else if a2dp_set_bit_format menv cfg.bits_per_sample ≠ 0 then (false, st)
    else
      (true,
       { st with
           bt_encoder_format := ENC_CODEC_TYPE_APTX
           enc_channels :=
             (aptx_build_dsp_cfg st.is_aptx_dual_mono_supported
               cfg).custom_cfg.num_channels
           enc_sampling_rate := cfg.sampling_rate })

/-- `configure_aptx_hd_enc_format`. -/
def configure_aptx_hd_enc_format (st : a2dp_data) (menv : mixer_env)
    (aptx_bt_cfg : Option audio_aptx_default_config) : Bool × a2dp_data :=
  match aptx_bt_cfg with
  | none => (false, st)
  | some cfg =>
    if menv.enc_config_ctl = false then (false, st)
    else if menv.enc_config_set_ok = false then (false, st)
    else if a2dp_set_bit_format menv cfg.bits_per_sample ≠ 0 then (false, st)
    else
      (true,
       { st with
           bt_encoder_format := ENC_CODEC_TYPE_APTX_HD
           enc_sampling_rate := cfg.sampling_rate
           enc_channels := cfg.channels })

/-- `configure_aac_enc_format`. -/
def configure_aac_enc_format (st : a2dp_data) (menv : mixer_env)
    (aac_bt_cfg : Option audio_aac_encoder_config) : Bool × a2dp_data :=
  match aac_bt_cfg with
  | none => (false, st)
  | some cfg =>
    if menv.enc_config_ctl = false then (false, st)
    else if menv.enc_config_set_ok = false then (false, st)
    else if a2dp_set_bit_format menv cfg.bits_per_sample ≠ 0 then (false, st)
    else
      (true,
       { st with
           bt_encoder_format := ENC_CODEC_TYPE_AAC
           enc_sampling_rate := cfg.sampling_rate
           enc_channels := cfg.channels })

/-- `configure_ldac_enc_format`. -/
def configure_ldac_enc_format (st : a2dp_data) (menv : mixer_env)
    (ldac_bt_cfg : Option audio_ldac_encoder_config) : Bool × a2dp_data :=
  match ldac_bt_cfg with
  | none => (false, st)
  | some cfg =>
    if menv.enc_config_ctl = false then (false, st)
    else if menv.enc_config_set_ok = false then (false, st)
    else if a2dp_set_bit_format menv cfg.bits_per_sample ≠ 0 then (false, st)
    else
      (true,
       { st with
           bt_encoder_format := ENC_CODEC_TYPE_LDAC
           enc_sampling_rate := cfg.sampling_rate
           enc_channels :=
             (ldac_build_dsp_cfg cfg).custom_cfg.num_channels })

/-- `configure_a2dp_encoder_format`: dispatch on the codec type returned by
`audio_get_codec_config` (the symbol must be bound). The APTX case first
forces `is_aptx_dual_mono_supported` to false. -/
def configure_a2dp_encoder_format (st : a2dp_data) (menv : mixer_env)
    (ci : codec_info) : Bool × a2dp_data :=
  if st.audio_get_codec_config = false then (false, st)
  else
    match ci with
    | .invalid => (false, st)
    | .sbc c => configure_sbc_enc_format st menv c
    | .aptx c =>
        configure_aptx_enc_format
          { st with is_aptx_dual_mono_supported := false } menv c
    | .aptx_hd c => configure_aptx_hd_enc_format st menv c
    | .aac c => configure_aac_enc_format st menv c
    | .ldac c => configure_ldac_enc_format st menv c

/-- Per-call IPC and mixer environment of `audio_extn_a2dp_start_playback`. -/
structure start_env where
  /-- return value of `audio_stream_start()` if invoked -/
  stream_start_ret : Int
  /-- codec info block returned by `audio_get_codec_config` -/
  cinfo : codec_info
  menv : mixer_env
  /-- result of `audio_is_scrambling_enabled()` if consulted -/
  scrambling_enabled : Bool
deriving DecidableEq, Repr

/-- Result of `audio_extn_a2dp_start_playback`: return value, new session
state, and which collaborator calls were performed. -/
structure start_result where
  ret : Int
  st : a2dp_data
  ipc_start_invoked : Bool
  encoder_cfg_invoked : Bool
  scrambler_invoked : Bool
  backend_cfg_invoked : Bool
deriving DecidableEq, Repr

/-- `audio_extn_a2dp_start_playback`. -/
def audio_extn_a2dp_start_playback (st : a2dp_data) (env : start_env) :
    start_result :=
  if ¬(st.bt_lib_handle = true ∧ st.audio_stream_start = true ∧
        st.audio_get_codec_config = true) then
    { ret := -ENOSYS, st := st, ipc_start_invoked := false
      encoder_cfg_invoked := false, scrambler_invoked := false
      backend_cfg_invoked := false }
  else if st.a2dp_suspended = true then
    { ret := -ENOSYS, st := st, ipc_start_invoked := false
      encoder_cfg_invoked := false, scrambler_invoked := false
      backend_cfg_invoked := false }
  else if st.a2dp_started = false ∧
      st.a2dp_total_active_session_request = 0 then
    if env.stream_start_ret ≠ 0 then
      { ret := env.stream_start_ret, st := { st with a2dp_started := false }
        ipc_start_invoked := true, encoder_cfg_invoked := false
        scrambler_invoked := false, backend_cfg_invoked := false }
    else if (configure_a2dp_encoder_format st env.menv env.cinfo).1 = true then
      { ret := 0
        st :=
          { (configure_a2dp_encoder_format st env.menv env.cinfo).2 with
              a2dp_started := true
              a2dp_total_active_session_request :=
                (configure_a2dp_encoder_format st env.menv
                  env.cinfo).2.a2dp_total_active_session_request + 1 }
        ipc_start_invoked := true, encoder_cfg_invoked := true
        scrambler_invoked := true, backend_cfg_invoked := true }
    else
      { ret := -ETIMEDOUT
        st :=
          { (configure_a2dp_encoder_format st env.menv env.cinfo).2 with
              a2dp_started := false }
        ipc_start_invoked := true, encoder_cfg_invoked := true
        scrambler_invoked := false, backend_cfg_invoked := false }
  else if st.a2dp_started = true then
    { ret := 0
      st :=
        { st with
            a2dp_total_active_session_request :=
              st.a2dp_total_active_session_request + 1 }
      ipc_start_invoked := false, encoder_cfg_invoked := false
      scrambler_invoked := true, backend_cfg_invoked := true }
  else
    { ret := 0, st := st, ipc_start_invoked := false
      encoder_cfg_invoked := false, scrambler_invoked := false
      backend_cfg_invoked := false }

/-- Per-call environment of `audio_extn_a2dp_stop_playback`. -/
structure stop_env where
  /-- return value of `audio_stream_stop()` if invoked -/
  stream_stop_ret : Int
  menv : mixer_env
deriving DecidableEq, Repr

/-- Result of `audio_extn_a2dp_stop_playback`. -/
structure stop_result where
  ret : Int
  st : a2dp_data
  ipc_stop_invoked : Bool
deriving DecidableEq, Repr

/-- `audio_extn_a2dp_stop_playback`: decrements the active session counter
only when positive; invokes IPC stop, resets the encoder config and the
backend config and clears `a2dp_started` exactly when a started session sees
the counter reach zero. The IPC stop result and the mixer reset results are
only logged. -/
def audio_extn_a2dp_stop_playback (st : a2dp_data) (env : stop_env) :
    stop_result :=
  if ¬(st.bt_lib_handle = true ∧ st.audio_stream_stop = true) then
    { ret := -ENOSYS, st := st, ipc_stop_invoked := false }
  else
    let st1 :=
      if 0 < st.a2dp_total_active_session_request then
        { st with
            a2dp_total_active_session_request :=
              st.a2dp_total_active_session_request - 1 }
      else st
    if st1.a2dp_started = true ∧ st1.a2dp_total_active_session_request = 0 then
      { ret := 0
        st :=
          { (reset_a2dp_enc_config_params st1 env.menv).2 with
              a2dp_started := false }
        ipc_stop_invoked := true }
    else
      { ret := 0, st := st1, ipc_stop_invoked := false }

/-- `audio_extn_a2dp_init`: the zero initialised global is reinitialised via
`a2dp_common_init`, the negotiated rate is set to 48000, the capability
flags are cleared, the encoder config is reset and the offload support
property is loaded. -/
def audio_extn_a2dp_init (menv : mixer_env) (offload_supported : Bool) :
    a2dp_data :=
  { (reset_a2dp_enc_config_params
      { a2dp_common_init
          { bt_lib_handle := false, audio_stream_open := false
            audio_stream_close := false, audio_stream_start := false
            audio_stream_stop := false, audio_stream_suspend := false
            clear_a2dp_suspend_flag := false, audio_get_codec_config := false
            audio_check_a2dp_ready := false
            audio_is_scrambling_enabled := false
            bt_state := A2DP_STATE.CONNECTED, bt_encoder_format := 0
            enc_sampling_rate := 0, enc_channels := 0, a2dp_started := false
            a2dp_suspended := false, a2dp_total_active_session_request := 0
            is_a2dp_offload_supported := false
            is_handoff_in_progress := false
            is_aptx_dual_mono_supported := false } with
        enc_sampling_rate := 48000 } menv).2 with
    is_a2dp_offload_supported := offload_supported }

/-- Result of `audio_extn_a2dp_is_ready`. -/
structure is_ready_result where
  ret : Bool
  /-- whether `audio_check_a2dp_ready()` was called -/
  ready_check_consulted : Bool
deriving DecidableEq, Repr

/-- `audio_extn_a2dp_is_ready`; `check_ready_ret` is the IPC result when the
ready check is consulted. -/
def audio_extn_a2dp_is_ready (st : a2dp_data) (check_ready_ret : Bool) :
    is_ready_result :=
  if st.a2dp_suspended = true then
    { ret := false, ready_check_consulted := false }
  else if st.bt_state ≠ A2DP_STATE.DISCONNECTED ∧
      st.is_a2dp_offload_supported = true ∧
      st.audio_check_a2dp_ready = true then
    { ret := check_ready_ret, ready_check_consulted := true }
  else
    { ret := false, ready_check_consulted := false }

/-! ### Trace semantics for start/stop sequences -/

/-- One external call into the session state machine, with the collaborator
behaviour observed during that call. -/
inductive a2dp_event where
  | start_playback (env : start_env)
  | stop_playback (env : stop_env)
deriving DecidableEq, Repr

/-- State reached after one event. -/
def a2dp_step (st : a2dp_data) (e : a2dp_event) : a2dp_data :=
  match e with
  | .start_playback env => (audio_extn_a2dp_start_playback st env).st
  | .stop_playback env => (audio_extn_a2dp_stop_playback st env).st

/-- State reached after a sequence of events. -/
def a2dp_run (st : a2dp_data) : List a2dp_event → a2dp_data
  | [] => st
  | e :: es => a2dp_run (a2dp_step st e) es

/-- The session counter invariant: the active session counter is never
negative, and a started datapath accounts for at least one session. -/
def sessionInv (st : a2dp_data) : Prop :=
  0 ≤ st.a2dp_total_active_session_request ∧
    (st.a2dp_started = true → 1 ≤ st.a2dp_total_active_session_request)

instance (st : a2dp_data) : Decidable (sessionInv st) := by
  unfold sessionInv; infer_instance

/-! ### Concrete fixtures for scenarios and witnesses -/

/-- A mixer environment in which every control resolves and every write is
accepted. -/
def menvOk : mixer_env :=
  { enc_config_ctl := true, enc_config_set_ok := true
    bit_format_ctl := true, bit_format_set_ok := true
    sample_rate_ctl := true, sample_rate_set_ok := true
    in_channels_ctl := true, in_channels_set_ok := true
    scrambler_ctl := true, scrambler_set_ok := true }

/-- A freshly connected session with the IPC library loaded and every
symbol bound. -/
def stConn : a2dp_data :=
  { bt_lib_handle := true, audio_stream_open := true
    audio_stream_close := true, audio_stream_start := true
    audio_stream_stop := true, audio_stream_suspend := true
    clear_a2dp_suspend_flag := true, audio_get_codec_config := true
    audio_check_a2dp_ready := true, audio_is_scrambling_enabled := true
    bt_state := A2DP_STATE.CONNECTED
    bt_encoder_format := ENC_CODEC_TYPE_INVALID
    enc_sampling_rate := 48000, enc_channels := 0
    a2dp_started := false, a2dp_suspended := false
    a2dp_total_active_session_request := 0
    is_a2dp_offload_supported := true, is_handoff_in_progress := false
    is_aptx_dual_mono_supported := false }

/-- SBC parameter set of Scenario 1 of the spec. -/
def sbcScenario1 : audio_sbc_encoder_config :=
  { subband := 8, blk_len := 16, sampling_rate := 44100, channels := 2
    alloc := 0, min_bitpool := 2, max_bitpool := 53, bitrate := 328000
    bits_per_sample := 16 }

/-- LDAC parameter set of Scenario 2 of the spec. -/
def ldacScenario2 : audio_ldac_encoder_config :=
  { sampling_rate := 48000, bit_rate := 606000, channel_mode := 4
    mtu := 679, bits_per_sample := 16 }

/-- A start environment in which the IPC start succeeds and the negotiated
codec is the Scenario 1 SBC parameter set. -/
def startEnvOkSbc : start_env :=
  { stream_start_ret := 0, cinfo := .sbc (some sbcScenario1)
    menv := menvOk, scrambling_enabled := false }

/-- A stop environment in which IPC stop succeeds and all mixer writes are
accepted. -/
def stopEnvOk : stop_env := { stream_stop_ret := 0, menv := menvOk }

/-- A session with one started SBC playback session. -/
def stStarted1 : a2dp_data :=
  { stConn with
      bt_state := A2DP_STATE.STARTED
      bt_encoder_format := ENC_CODEC_TYPE_SBC
      enc_sampling_rate := 44100, enc_channels := 2
      a2dp_started := true, a2dp_total_active_session_request := 1 }

/-- A connected session that is suspended. -/
def stSuspended : a2dp_data := { stConn with a2dp_suspended := true }

/-- A session whose IPC library handle is not loaded. -/
def stUnbound : a2dp_data := { stConn with bt_lib_handle := false }

/-- A session in the DISCONNECTED state with everything else favourable. -/
def stDisc : a2dp_data := { stConn with bt_state := A2DP_STATE.DISCONNECTED }

/-- A connected session with a negotiated LDAC codec at 48 kHz. -/
def stLdac48 : a2dp_data :=
  { stConn with
      bt_encoder_format := ENC_CODEC_TYPE_LDAC
      enc_sampling_rate := 48000, enc_channels := 1 }

/-- A mixer environment in which no control resolves. -/
def menvNone : mixer_env :=
  { enc_config_ctl := false, enc_config_set_ok := false
    bit_format_ctl := false, bit_format_set_ok := false
    sample_rate_ctl := false, sample_rate_set_ok := false
    in_channels_ctl := false, in_channels_set_ok := false
    scrambler_ctl := false, scrambler_set_ok := false }

/-- A stop environment in which the IPC stop fails and no mixer control
resolves. -/
def stopEnvFail : stop_env := { stream_stop_ret := -1, menv := menvNone }

/-! ### Helper lemmas -/

theorem configure_sbc_session_counter (st : a2dp_data) (menv : mixer_env)
    (c : Option audio_sbc_encoder_config) :
    (configure_sbc_enc_format st menv c).2.a2dp_total_active_session_request
        = st.a2dp_total_active_session_request ∧
      (configure_sbc_enc_format st menv c).2.a2dp_started = st.a2dp_started := by
  cases c with
  | none => exact ⟨rfl, rfl⟩
  | some cfg =>
    dsimp only [configure_sbc_enc_format]
    split_ifs <;> exact ⟨rfl, rfl⟩

theorem configure_aptx_session_counter (st : a2dp_data) (menv : mixer_env)
    (c : Option audio_aptx_encoder_config) :
    (configure_aptx_enc_format st menv c).2.a2dp_total_active_session_request
        = st.a2dp_total_active_session_request ∧
      (configure_aptx_enc_format st menv c).2.a2dp_started = st.a2dp_started := by
  cases c with
  | none => exact ⟨rfl, rfl⟩
  | some cfg =>
    dsimp only [configure_aptx_enc_format]
    split_ifs <;> exact ⟨rfl, rfl⟩

theorem configure_aptx_hd_session_counter (st : a2dp_data) (menv : mixer_env)
    (c : Option audio_aptx_default_config) :
    (configure_aptx_hd_enc_format st menv c).2.a2dp_total_active_session_request
        = st.a2dp_total_active_session_request ∧
      (configure_aptx_hd_enc_format st menv c).2.a2dp_started
        = st.a2dp_started := by
  cases c with
  | none => exact ⟨rfl, rfl⟩
  | some cfg =>
    dsimp only [configure_aptx_hd_enc_format]
    split_ifs <;> exact ⟨rfl, rfl⟩

theorem configure_aac_session_counter (st : a2dp_data) (menv : mixer_env)
    (c : Option audio_aac_encoder_config) :
    (configure_aac_enc_format st menv c).2.a2dp_total_active_session_request
        = st.a2dp_total_active_session_request ∧
      (configure_aac_enc_format st menv c).2.a2dp_started = st.a2dp_started := by
  cases c with
  | none => exact ⟨rfl, rfl⟩
  | some cfg =>
    dsimp only [configure_aac_enc_format]
    split_ifs <;> exact ⟨rfl, rfl⟩

theorem configure_ldac_session_counter (st : a2dp_data) (menv : mixer_env)
    (c : Option audio_ldac_encoder_config) :
    (configure_ldac_enc_format st menv c).2.a2dp_total_active_session_request
        = st.a2dp_total_active_session_request ∧
      (configure_ldac_enc_format st menv c).2.a2dp_started
        = st.a2dp_started := by
  cases c with
  | none => exact ⟨rfl, rfl⟩
  | some cfg =>
    dsimp only [configure_ldac_enc_format]
    split_ifs <;> exact ⟨rfl, rfl⟩

theorem configure_encoder_session_counter (st : a2dp_data) (menv : mixer_env)
    (ci : codec_info) :
    (configure_a2dp_encoder_format st menv
        ci).2.a2dp_total_active_session_request
        = st.a2dp_total_active_session_request ∧
      (configure_a2dp_encoder_format st menv ci).2.a2dp_started
        = st.a2dp_started := by
  unfold configure_a2dp_encoder_format
  split_ifs with h
  · exact ⟨rfl, rfl⟩
  · cases ci with
    | invalid => exact ⟨rfl, rfl⟩
    | sbc c => exact configure_sbc_session_counter st menv c
    | aptx c => exact configure_aptx_session_counter _ menv c
    | aptx_hd c => exact configure_aptx_hd_session_counter st menv c
    | aac c => exact configure_aac_session_counter st menv c
    | ldac c => exact configure_ldac_session_counter st menv c

theorem reset_params_session_fields (st : a2dp_data) (menv : mixer_env) :
    (reset_a2dp_enc_config_params st menv).2.a2dp_total_active_session_request
        = st.a2dp_total_active_session_request ∧
      (reset_a2dp_enc_config_params st menv).2.a2dp_started = st.a2dp_started ∧
      (reset_a2dp_enc_config_params st menv).2.bt_lib_handle
        = st.bt_lib_handle ∧
      (reset_a2dp_enc_config_params st menv).2.audio_stream_close
        = st.audio_stream_close := by
  unfold reset_a2dp_enc_config_params
  split_ifs <;> exact ⟨rfl, rfl, rfl, rfl⟩

theorem start_playback_sessionInv (st : a2dp_data) (env : start_env)
    (h : sessionInv st) :
    sessionInv (audio_extn_a2dp_start_playback st env).st := by
  obtain ⟨h0, h1⟩ := h
  obtain ⟨hc, hs⟩ := configure_encoder_session_counter st env.menv env.cinfo
  unfold audio_extn_a2dp_start_playback sessionInv
  split_ifs with hb hsusp hfresh hret hcfg hstart <;>
    (try dsimp only) <;>
    refine ⟨?_, fun hx => ?_⟩ <;>
    first
      | omega
      | (exact Bool.noConfusion hx)
      | (exact hx.elim)
      | (rw [hc]; omega)
      | (have h2 := h1 hx; omega)

theorem stop_playback_sessionInv (st : a2dp_data) (env : stop_env)
    (h : sessionInv st) :
    sessionInv (audio_extn_a2dp_stop_playback st env).st := by
  obtain ⟨h0, h1⟩ := h
  unfold sessionInv
  simp only [audio_extn_a2dp_stop_playback, reset_a2dp_enc_config_params]
  split_ifs <;>
    (try dsimp only) <;>
    refine ⟨?_, fun hx => ?_⟩ <;>
    first
      | omega
      | (exact Bool.noConfusion hx)
      | (exact hx.elim)
      | (have h2 := h1 hx; omega)
      | (have h2 := h1 hx
         rename_i hcond
         dsimp only at hcond
         rw [hx] at hcond
         simp only [true_and] at hcond
         omega)

theorem stop_playback_ipc_characterization (st : a2dp_data) (env : stop_env)
    (h : sessionInv st) :
    (((audio_extn_a2dp_stop_playback st env).ipc_stop_invoked = true) ↔
      (st.a2dp_started = true ∧ st.a2dp_total_active_session_request = 1 ∧
        (audio_extn_a2dp_stop_playback st
            env).st.a2dp_total_active_session_request = 0)) ∧
    (0 < (audio_extn_a2dp_stop_playback st
        env).st.a2dp_total_active_session_request →
      (audio_extn_a2dp_stop_playback st env).ipc_stop_invoked = false) := by
  obtain ⟨h0, h1⟩ := h
  simp only [audio_extn_a2dp_stop_playback, reset_a2dp_enc_config_params]
  split_ifs with hb hdec hcond hcond2 <;>
    (try dsimp only at hcond) <;>
    (try dsimp only at hcond2) <;>
    (try dsimp only) <;>
    refine ⟨⟨fun hinv => ?_, fun hrhs => ?_⟩, fun hpos => ?_⟩ <;>
      first
        | rfl
        | (exact Bool.noConfusion hinv)
        | (exact ⟨hcond.1, by omega, by omega⟩)
        | (exact ⟨hcond2.1, by omega, by omega⟩)
        | (obtain ⟨ha, hb2, hc2⟩ := hrhs; exact absurd ⟨ha, by omega⟩ hcond)
        | (obtain ⟨ha, hb2, hc2⟩ := hrhs; exact absurd ⟨ha, by omega⟩ hcond2)
        | (obtain ⟨ha, hb2, hc2⟩ := hrhs; exfalso; omega)
        | (exact hinv.elim)
        | (exfalso; exact absurd (h1 hcond.1) (by omega))
        | (exfalso; exact absurd (h1 hcond2.1) (by omega))
        | (exfalso
           rename_i hc hctl
           exact absurd (h1 hc.1) (by omega))
        | (exfalso
           rename_i hc
           exact absurd (h1 hc.1) (by omega))
        | (exfalso; omega)

theorem init_sessionInv (menv : mixer_env) (offload_supported : Bool) :
    sessionInv (audio_extn_a2dp_init menv offload_supported) := by
  unfold audio_extn_a2dp_init a2dp_common_init reset_a2dp_enc_config_params
    sessionInv
  split_ifs <;>
    refine ⟨?_, fun hx => ?_⟩ <;>
    (try dsimp only at hx) <;>
    (try dsimp only) <;>
    first
      | omega
      | (exact Bool.noConfusion hx)

theorem step_sessionInv (st : a2dp_data) (e : a2dp_event)
    (h : sessionInv st) : sessionInv (a2dp_step st e) := by
  cases e with
  | start_playback env => exact start_playback_sessionInv st env h
  | stop_playback env => exact stop_playback_sessionInv st env h

theorem run_sessionInv (st : a2dp_data) (evs : List a2dp_event)
    (h : sessionInv st) : sessionInv (a2dp_run st evs) := by
  induction evs generalizing st with
  | nil => exact h
  | cons e es ih => exact ih (a2dp_step st e) (step_sessionInv st e h)

/-! ### Claim theorems -/

/-- Claim C1: along every sequence of start and stop calls from the
initialised session the active session counter never becomes negative (stop
only decrements it when positive, so the counter invariant is preserved by
every step); and a stop call invokes the IPC audio_stream_stop operation
exactly when the counter transitions from 1 to 0 while a session was
started, and never while the counter remains greater than 0. -/
theorem a2dp_counter_nonneg_and_ipc_stop_once :
    (∀ (menv : mixer_env) (offload : Bool) (evs : List a2dp_event),
        0 ≤ (a2dp_run (audio_extn_a2dp_init menv offload)
            evs).a2dp_total_active_session_request ∧
          sessionInv (a2dp_run (audio_extn_a2dp_init menv offload) evs)) ∧
    (∀ (st : a2dp_data) (e : a2dp_event),
        sessionInv st → sessionInv (a2dp_step st e)) ∧
    (∀ (st : a2dp_data) (env : stop_env), sessionInv st →
        (((audio_extn_a2dp_stop_playback st env).ipc_stop_invoked = true) ↔
          (st.a2dp_started = true ∧
            st.a2dp_total_active_session_request = 1 ∧
            (audio_extn_a2dp_stop_playback st
               env).st.a2dp_total_active_session_request = 0)) ∧
        (0 < (audio_extn_a2dp_stop_playback st
            env).st.a2dp_total_active_session_request →
          (audio_extn_a2dp_stop_playback st env).ipc_stop_invoked = false)) := by
  refine ⟨?_, step_sessionInv, stop_playback_ipc_characterization⟩
  intro menv offload evs
  have h := run_sessionInv (audio_extn_a2dp_init menv offload) evs
    (init_sessionInv menv offload)
  exact ⟨h.1, h⟩

/-- Witness for C1: a concrete started single-session state satisfies the
invariant after a stop step, and that stop does invoke IPC stop since the
counter goes from 1 to 0. -/
theorem a2dp_counter_nonneg_and_ipc_stop_once_witness :
    sessionInv (a2dp_step stStarted1 (a2dp_event.stop_playback stopEnvOk)) ∧
      ((audio_extn_a2dp_stop_playback stStarted1 stopEnvOk).ipc_stop_invoked
          = true ↔
        (stStarted1.a2dp_started = true ∧
          stStarted1.a2dp_total_active_session_request = 1 ∧
          (audio_extn_a2dp_stop_playback stStarted1
              stopEnvOk).st.a2dp_total_active_session_request = 0)) :=
  ⟨a2dp_counter_nonneg_and_ipc_stop_once.2.1 stStarted1
      (a2dp_event.stop_playback stopEnvOk) (by decide),
   (a2dp_counter_nonneg_and_ipc_stop_once.2.2 stStarted1 stopEnvOk
      (by decide)).1⟩

/-- Claim C2: with the IPC handle, the start operation and the
get-codec-config operation all bound, a start call while suspended returns
the busy error code (-ENOSYS), leaves the session state (in particular the
active session counter) unchanged, and performs no IPC start call. -/
theorem start_playback_suspended_busy (st : a2dp_data) (env : start_env)
    (hh : st.bt_lib_handle = true) (hs : st.audio_stream_start = true)
    (hg : st.audio_get_codec_config = true)
    (hsusp : st.a2dp_suspended = true) :
    (audio_extn_a2dp_start_playback st env).ret = -ENOSYS ∧
      (audio_extn_a2dp_start_playback st env).st = st ∧
      (audio_extn_a2dp_start_playback st
          env).st.a2dp_total_active_session_request
        = st.a2dp_total_active_session_request ∧
      (audio_extn_a2dp_start_playback st env).ipc_start_invoked = false := by
  unfold audio_extn_a2dp_start_playback
  rw [if_neg (not_not_intro ⟨hh, hs, hg⟩), if_pos hsusp]
  exact ⟨rfl, rfl, rfl, rfl⟩

/-- Witness for C2 at a concrete suspended session. -/
theorem start_playback_suspended_busy_witness :
    (audio_extn_a2dp_start_playback stSuspended startEnvOkSbc).ret
        = -ENOSYS ∧
      (audio_extn_a2dp_start_playback stSuspended startEnvOkSbc).st
        = stSuspended ∧
      (audio_extn_a2dp_start_playback stSuspended
          startEnvOkSbc).st.a2dp_total_active_session_request
        = stSuspended.a2dp_total_active_session_request ∧
      (audio_extn_a2dp_start_playback stSuspended
          startEnvOkSbc).ipc_start_invoked = false :=
  start_playback_suspended_busy stSuspended startEnvOkSbc rfl rfl rfl rfl

/-- Claim C3: when a session is already started (counter 1 after one
successful start) and the operations are bound and not suspended, a second
start call performs no IPC start call and no encoder configuration, but
reapplies the scrambler configuration and the backend mixer configuration,
and leaves the counter at 2 with a success return. -/
theorem start_playback_second_call (st : a2dp_data) (env : start_env)
    (hh : st.bt_lib_handle = true) (hs : st.audio_stream_start = true)
    (hg : st.audio_get_codec_config = true)
    (hsusp : st.a2dp_suspended = false)
    (hstarted : st.a2dp_started = true)
    (hcount : st.a2dp_total_active_session_request = 1) :
    (audio_extn_a2dp_start_playback st env).ipc_start_invoked = false ∧
      (audio_extn_a2dp_start_playback st env).encoder_cfg_invoked = false ∧
      (audio_extn_a2dp_start_playback st env).scrambler_invoked = true ∧
      (audio_extn_a2dp_start_playback st env).backend_cfg_invoked = true ∧
      (audio_extn_a2dp_start_playback st
          env).st.a2dp_total_active_session_request = 2 ∧
      (audio_extn_a2dp_start_playback st env).ret = 0 := by
  unfold audio_extn_a2dp_start_playback
  rw [if_neg (not_not_intro ⟨hh, hs, hg⟩), if_neg (by simp [hsusp]),
      if_neg (by simp [hstarted]), if_pos hstarted]
  refine ⟨rfl, rfl, rfl, rfl, ?_, rfl⟩
  dsimp only
  rw [hcount]
  decide

/-- Witness for C3: a first start from a freshly connected session succeeds
with counter 1, and the second call behaves as claimed. -/
theorem start_playback_second_call_witness :
    (audio_extn_a2dp_start_playback
        (audio_extn_a2dp_start_playback stConn startEnvOkSbc).st
        startEnvOkSbc).ipc_start_invoked = false ∧
      (audio_extn_a2dp_start_playback
          (audio_extn_a2dp_start_playback stConn startEnvOkSbc).st
          startEnvOkSbc).encoder_cfg_invoked = false ∧
      (audio_extn_a2dp_start_playback
          (audio_extn_a2dp_start_playback stConn startEnvOkSbc).st
          startEnvOkSbc).scrambler_invoked = true ∧
      (audio_extn_a2dp_start_playback
          (audio_extn_a2dp_start_playback stConn startEnvOkSbc).st
          startEnvOkSbc).backend_cfg_invoked = true ∧
      (audio_extn_a2dp_start_playback
          (audio_extn_a2dp_start_playback stConn startEnvOkSbc).st
          startEnvOkSbc).st.a2dp_total_active_session_request = 2 ∧
      (audio_extn_a2dp_start_playback
          (audio_extn_a2dp_start_playback stConn startEnvOkSbc).st
          startEnvOkSbc).ret = 0 :=
  start_playback_second_call
    (audio_extn_a2dp_start_playback stConn startEnvOkSbc).st startEnvOkSbc
    (by decide) (by decide) (by decide) (by decide) (by decide) (by decide)

theorem stop_playback_preserves_handles (st : a2dp_data) (env : stop_env) :
    (audio_extn_a2dp_stop_playback st env).st.bt_lib_handle
        = st.bt_lib_handle ∧
      (audio_extn_a2dp_stop_playback st env).st.audio_stream_close
        = st.audio_stream_close := by
  simp only [audio_extn_a2dp_stop_playback, reset_a2dp_enc_config_params]
  split_ifs <;> exact ⟨rfl, rfl⟩

/-- Counterexample to claim C4: stopping the single started session and
then disconnecting leaves the negotiated sample rate at 0, not 48000. -/
theorem stop_then_close_sample_rate_zero :
    (close_a2dp_output
        (audio_extn_a2dp_stop_playback stStarted1
          stopEnvOk).st).2.enc_sampling_rate = 0 ∧
      ¬((close_a2dp_output
          (audio_extn_a2dp_stop_playback stStarted1
            stopEnvOk).st).2.enc_sampling_rate = 48000) := by
  decide

/-- Claim C4 (amended): a stop followed by a disconnect (with the handle
and close operation bound) always leaves the negotiated sample rate cleared
to 0 (not 48000: 48000 is only the init-time default), the negotiated
channel count cleared to 0, and the active encoder codec at the
invalid/none value. -/
theorem stop_then_close_resets_session (st : a2dp_data) (senv : stop_env)
    (hh : st.bt_lib_handle = true) (hc : st.audio_stream_close = true) :
    (close_a2dp_output
        (audio_extn_a2dp_stop_playback st senv).st).2.enc_sampling_rate
      = 0 ∧
      (close_a2dp_output
          (audio_extn_a2dp_stop_playback st senv).st).2.enc_channels = 0 ∧
      (close_a2dp_output
          (audio_extn_a2dp_stop_playback st senv).st).2.bt_encoder_format
        = ENC_CODEC_TYPE_INVALID ∧
      (close_a2dp_output (audio_extn_a2dp_stop_playback st senv).st).1
        = 0 := by
  obtain ⟨p1, p2⟩ := stop_playback_preserves_handles st senv
  unfold close_a2dp_output
  rw [if_neg (not_not_intro ⟨p1.trans hh, p2.trans hc⟩)]
  exact ⟨rfl, rfl, rfl, rfl⟩

/-- Witness for C4 (amended) at a concrete started session. -/
theorem stop_then_close_resets_session_witness :
    (close_a2dp_output
        (audio_extn_a2dp_stop_playback stStarted1
          stopEnvOk).st).2.enc_sampling_rate = 0 ∧
      (close_a2dp_output
          (audio_extn_a2dp_stop_playback stStarted1
            stopEnvOk).st).2.enc_channels = 0 ∧
      (close_a2dp_output
          (audio_extn_a2dp_stop_playback stStarted1
            stopEnvOk).st).2.bt_encoder_format = ENC_CODEC_TYPE_INVALID ∧
      (close_a2dp_output
          (audio_extn_a2dp_stop_playback stStarted1 stopEnvOk).st).1 = 0 :=
  stop_then_close_resets_session stStarted1 stopEnvOk rfl rfl

/-- Claim C5: the SBC encoder maps channel index 0 to the mono constant, 1
to dual mono, 3 to joint stereo, and 2 or any other value to stereo; a
truthy allocation flag maps to the LOUDNESS constant and a falsy one to
SNR; on the Scenario 1 parameters (channels 2, alloc false, 44100 Hz) the
built record is stereo with SNR allocation at 44100 Hz and a successful
configure records 2 encoder channels in the session. -/
theorem sbc_encoder_mapping_and_scenario1 :
    (∀ cfg : audio_sbc_encoder_config,
        (sbc_build_dsp_cfg cfg).channel_mode =
          (if cfg.channels = 0 then MEDIA_FMT_SBC_CHANNEL_MODE_MONO
           else if cfg.channels = 1 then MEDIA_FMT_SBC_CHANNEL_MODE_DUAL_MONO
           else if cfg.channels = 3 then
             MEDIA_FMT_SBC_CHANNEL_MODE_JOINT_STEREO
           else MEDIA_FMT_SBC_CHANNEL_MODE_STEREO) ∧
        (sbc_build_dsp_cfg cfg).alloc_method =
          (if cfg.alloc ≠ 0 then MEDIA_FMT_SBC_ALLOCATION_METHOD_LOUDNESS
           else MEDIA_FMT_SBC_ALLOCATION_METHOD_SNR)) ∧
    ((sbc_build_dsp_cfg sbcScenario1).channel_mode
        = MEDIA_FMT_SBC_CHANNEL_MODE_STEREO ∧
      (sbc_build_dsp_cfg sbcScenario1).alloc_method
        = MEDIA_FMT_SBC_ALLOCATION_METHOD_SNR ∧
      (sbc_build_dsp_cfg sbcScenario1).sample_rate = 44100 ∧
      (configure_sbc_enc_format stConn menvOk (some sbcScenario1)).1
        = true ∧
      (configure_sbc_enc_format stConn menvOk
          (some sbcScenario1)).2.enc_channels = 2) := by
  refine ⟨fun cfg => ⟨rfl, rfl⟩, ?_⟩
  decide

/-- Claim C6: the backend mixer sample rate doubles the negotiated source
rate exactly for LDAC at 44.1 or 48 kHz while any other codec keeps the
source rate; LDAC channel mode 4 yields a center-only channel mapping with
one channel while modes 1, 2 and all other values yield left+right with
two channels; on the Scenario 2 parameters the configured session selects
the KHZ_96 backend rate string and records one encoder channel. -/
theorem ldac_backend_rate_and_channel_mapping :
    (∀ st : a2dp_data,
        (st.bt_encoder_format = ENC_CODEC_TYPE_LDAC →
          (st.enc_sampling_rate = 44100 ∨ st.enc_sampling_rate = 48000) →
          a2dp_backend_sampling_rate st = 2 * st.enc_sampling_rate) ∧
        (st.bt_encoder_format ≠ ENC_CODEC_TYPE_LDAC →
          a2dp_backend_sampling_rate st = st.enc_sampling_rate)) ∧
    (∀ cfg : audio_ldac_encoder_config,
        (cfg.channel_mode = 4 →
          (ldac_build_dsp_cfg cfg).custom_cfg.num_channels = 1 ∧
            (ldac_build_dsp_cfg cfg).custom_cfg.channel_mapping
              = [PCM_CHANNEL_C, 0, 0, 0, 0, 0, 0, 0]) ∧
        (cfg.channel_mode ≠ 4 →
          (ldac_build_dsp_cfg cfg).custom_cfg.num_channels = 2 ∧
            (ldac_build_dsp_cfg cfg).custom_cfg.channel_mapping
              = [PCM_CHANNEL_L, PCM_CHANNEL_R, 0, 0, 0, 0, 0, 0])) ∧
    ((configure_ldac_enc_format stConn menvOk (some ldacScenario2)).1
        = true ∧
      (configure_ldac_enc_format stConn menvOk
          (some ldacScenario2)).2.enc_channels = 1 ∧
      a2dp_backend_rate_str
          (configure_ldac_enc_format stConn menvOk (some ldacScenario2)).2
        = "KHZ_96" ∧
      (a2dp_set_backend_cfg
          (configure_ldac_enc_format stConn menvOk (some ldacScenario2)).2
          menvOk).rate_write = some "KHZ_96") := by
  refine ⟨?_, ?_, by decide⟩
  · intro st
    constructor
    · intro hf hr
      unfold a2dp_backend_sampling_rate
      rw [if_pos ⟨hf, hr.elim (fun h => Or.inr h) (fun h => Or.inl h)⟩]
      omega
    · intro hnf
      unfold a2dp_backend_sampling_rate
      rw [if_neg (fun hcc => hnf hcc.1)]
  · intro cfg
    constructor
    · intro h4
      exact ⟨by simp [ldac_build_dsp_cfg, ldac_num_channels, h4],
        by simp [ldac_build_dsp_cfg, ldac_channel_mapping, h4]⟩
    · intro h4n
      exact ⟨by simp [ldac_build_dsp_cfg, ldac_num_channels, h4n],
        by simp [ldac_build_dsp_cfg, ldac_channel_mapping, h4n]⟩

/-- Witness for C6: the LDAC doubling and the mono mapping instantiated at
a concrete 48 kHz LDAC session and at the Scenario 2 parameters, and the
non-LDAC and non-mono sides at an SBC session and channel mode 1. -/
theorem ldac_backend_rate_and_channel_mapping_witness :
    a2dp_backend_sampling_rate stLdac48 = 2 * stLdac48.enc_sampling_rate ∧
      a2dp_backend_sampling_rate stStarted1 = stStarted1.enc_sampling_rate ∧
      (ldac_build_dsp_cfg ldacScenario2).custom_cfg.num_channels = 1 ∧
      (ldac_build_dsp_cfg
          { ldacScenario2 with channel_mode := 1 }).custom_cfg.num_channels
        = 2 :=
  ⟨(ldac_backend_rate_and_channel_mapping.1 stLdac48).1 (by decide)
      (by decide),
   (ldac_backend_rate_and_channel_mapping.1 stStarted1).2 (by decide),
   ((ldac_backend_rate_and_channel_mapping.2.1 ldacScenario2).1
      (by decide)).1,
   ((ldac_backend_rate_and_channel_mapping.2.1
      { ldacScenario2 with channel_mode := 1 }).2 (by decide)).1⟩

/-- Claim C7: the AAC encoder maps encoder mode 0 to the LC constant, 2 to
the PS constant, and 1 as well as every other unrecognized value to the SBR
constant. -/
theorem aac_enc_mode_mapping :
    ∀ cfg : audio_aac_encoder_config,
      (aac_build_dsp_cfg cfg).enc_mode =
        (if cfg.enc_mode = 0 then MEDIA_FMT_AAC_AOT_LC
         else if cfg.enc_mode = 2 then MEDIA_FMT_AAC_AOT_PS
         else MEDIA_FMT_AAC_AOT_SBR) ∧
      (aac_build_dsp_cfg { cfg with enc_mode := 1 }).enc_mode
        = MEDIA_FMT_AAC_AOT_SBR :=
  fun cfg => ⟨rfl, rfl⟩

/-- Counterexample to claim C8: with the IPC handle not loaded,
audio_extn_a2dp_stop_playback returns -ENOSYS, not success. -/
theorem stop_playback_unbound_not_success :
    (audio_extn_a2dp_stop_playback stUnbound stopEnvOk).ret = -ENOSYS ∧
      ¬((audio_extn_a2dp_stop_playback stUnbound stopEnvOk).ret = 0) := by
  decide

/-- Claim C8 (amended): whenever the IPC handle and the stop operation are
bound, audio_extn_a2dp_stop_playback returns success (0) to the caller for
every session state and every environment, regardless of IPC stop failure
or mixer reset failure; with the handle unbound it instead returns
-ENOSYS. -/
theorem stop_playback_always_succeeds_when_bound (st : a2dp_data)
    (env : stop_env) (hh : st.bt_lib_handle = true)
    (hs : st.audio_stream_stop = true) :
    (audio_extn_a2dp_stop_playback st env).ret = 0 := by
  simp only [audio_extn_a2dp_stop_playback]
  rw [if_neg (not_not_intro ⟨hh, hs⟩)]
  split_ifs <;> rfl

/-- Witness for C8 (amended): stop succeeds even when the IPC stop call
fails and no mixer control resolves. -/
theorem stop_playback_always_succeeds_when_bound_witness :
    (audio_extn_a2dp_stop_playback stStarted1 stopEnvFail).ret = 0 :=
  stop_playback_always_succeeds_when_bound stStarted1 stopEnvFail rfl rfl

/-- Claim C9: whenever a configure function for SBC, APTX, AAC or LDAC
returns false (null parameter block, missing encoder-config mixer control,
failed encoder block write, or failed bit-format write), the session fields
bt_encoder_format, enc_sampling_rate and enc_channels keep their previous
values: they are assigned only after every fallible step has succeeded. -/
theorem configure_failure_preserves_session_fields (st : a2dp_data)
    (menv : mixer_env) :
    (∀ c, (configure_sbc_enc_format st menv c).1 = false →
        (configure_sbc_enc_format st menv c).2.bt_encoder_format
            = st.bt_encoder_format ∧
          (configure_sbc_enc_format st menv c).2.enc_sampling_rate
            = st.enc_sampling_rate ∧
          (configure_sbc_enc_format st menv c).2.enc_channels
            = st.enc_channels) ∧
    (∀ c, (configure_aptx_enc_format st menv c).1 = false →
        (configure_aptx_enc_format st menv c).2.bt_encoder_format
            = st.bt_encoder_format ∧
          (configure_aptx_enc_format st menv c).2.enc_sampling_rate
            = st.enc_sampling_rate ∧
          (configure_aptx_enc_format st menv c).2.enc_channels
            = st.enc_channels) ∧
    (∀ c, (configure_aac_enc_format st menv c).1 = false →
        (configure_aac_enc_format st menv c).2.bt_encoder_format
            = st.bt_encoder_format ∧
          (configure_aac_enc_format st menv c).2.enc_sampling_rate
            = st.enc_sampling_rate ∧
          (configure_aac_enc_format st menv c).2.enc_channels
            = st.enc_channels) ∧
    (∀ c, (configure_ldac_enc_format st menv c).1 = false →
        (configure_ldac_enc_format st menv c).2.bt_encoder_format
            = st.bt_encoder_format ∧
          (configure_ldac_enc_format st menv c).2.enc_sampling_rate
            = st.enc_sampling_rate ∧
          (configure_ldac_enc_format st menv c).2.enc_channels
            = st.enc_channels) := by
  refine ⟨?_, ?_, ?_, ?_⟩ <;>
    intro c hfail <;>
    (first
      | (cases c with
         | none => exact ⟨rfl, rfl, rfl⟩
         | some cfg =>
           dsimp only [configure_sbc_enc_format, configure_aptx_enc_format,
             configure_aac_enc_format, configure_ldac_enc_format]
             at hfail ⊢
           split_ifs at hfail ⊢ <;>
             first
               | (exact ⟨rfl, rfl, rfl⟩)
               | (exact Bool.noConfusion hfail)))

/-- Witness for C9: a missing encoder-config mixer control makes the SBC
configure fail and leaves the three session fields unchanged. -/
theorem configure_failure_preserves_session_fields_witness :
    (configure_sbc_enc_format stConn menvNone (some sbcScenario1)).1
        = false ∧
      (configure_sbc_enc_format stConn menvNone
          (some sbcScenario1)).2.bt_encoder_format
        = stConn.bt_encoder_format ∧
      (configure_sbc_enc_format stConn menvNone
          (some sbcScenario1)).2.enc_sampling_rate
        = stConn.enc_sampling_rate ∧
      (configure_sbc_enc_format stConn menvNone
          (some sbcScenario1)).2.enc_channels = stConn.enc_channels :=
  ⟨by decide,
   (configure_failure_preserves_session_fields stConn menvNone).1
     (some sbcScenario1) (by decide)⟩

/-- Claim C10: audio_extn_a2dp_is_ready returns false whenever the state is
DISCONNECTED, even with suspension off, offload supported and the ready
check bound; and the IPC ready check is consulted exactly when the session
is not suspended, the state is not DISCONNECTED, offload is supported and
the ready-check operation is bound. -/
theorem is_ready_disconnected_and_consultation (st : a2dp_data)
    (check_ready_ret : Bool) :
    (st.bt_state = A2DP_STATE.DISCONNECTED →
      (audio_extn_a2dp_is_ready st check_ready_ret).ret = false) ∧
    ((audio_extn_a2dp_is_ready st
        check_ready_ret).ready_check_consulted = true ↔
      (st.a2dp_suspended = false ∧
        st.bt_state ≠ A2DP_STATE.DISCONNECTED ∧
        st.is_a2dp_offload_supported = true ∧
        st.audio_check_a2dp_ready = true)) := by
  unfold audio_extn_a2dp_is_ready
  split_ifs with hsusp hcond
  · refine ⟨fun _ => rfl, ?_⟩
    constructor
    · intro hx
      exact hx.elim
    · rintro ⟨hns, -, -, -⟩
      rw [hsusp] at hns
      exact Bool.noConfusion hns
  · obtain ⟨hd, ho, hr⟩ := hcond
    refine ⟨fun hdisc => absurd hdisc hd, ?_⟩
    simp only [Bool.not_eq_true] at hsusp
    exact ⟨fun _ => ⟨hsusp, hd, ho, hr⟩, fun _ => rfl⟩
  · refine ⟨fun _ => rfl, ?_⟩
    constructor
    · intro hx
      exact hx.elim
    · rintro ⟨-, hd, ho, hr⟩
      exact absurd ⟨hd, ho, hr⟩ hcond

/-- Witness for C10: a disconnected but otherwise fully favourable session
is reported not ready. -/
theorem is_ready_disconnected_and_consultation_witness :
    (audio_extn_a2dp_is_ready stDisc true).ret = false ∧
      (stDisc.a2dp_suspended = false ∧
        stDisc.is_a2dp_offload_supported = true ∧
        stDisc.audio_check_a2dp_ready = true) :=
  ⟨(is_ready_disconnected_and_consultation stDisc true).1 rfl, by decide⟩
